import Mathlib

/-!
Verification development for the core of a WebSocket endpoint library
(tungstenite): the protocol state machine of `src/protocol/mod.rs` and the
permessage-deflate extension of `src/extensions/deflate.rs`, shallowly
embedded.  The frame codec, the message assembler and the error type live in
modules that are not part of this source tree; where the embedding needs
them they are modelled from the specification, and every such definition is
marked `Modelled from the spec:` in its doc comment.
-/

namespace Tungstenite

/-- UTF-8 encoding of one character, as natural numbers. -/
def utf8EncodeCharNat (c : Char) : List Nat :=
  let n := c.toNat
  if n < 128 then [n]
  else if n < 2048 then [192 + n / 64, 128 + n % 64]
  else if n < 65536 then
    [224 + n / 4096, 128 + (n / 64) % 64, 128 + n % 64]
  else
    [240 + n / 262144, 128 + (n / 4096) % 64, 128 + (n / 64) % 64, 128 + n % 64]

/-- Bytes of the UTF-8 encoding of a string, as natural numbers. -/
def strBytes (s : String) : List Nat :=
  (s.data.map utf8EncodeCharNat).flatten

/-- Whether a byte is a UTF-8 continuation byte (`10xxxxxx`). -/
def utf8Cont (b : Nat) : Bool :=
  128 ≤ b && b ≤ 191

/-- Modelled from the spec: UTF-8 validity of a byte sequence (§4.2 requires
text messages to be validated as UTF-8 at completion; the validator itself
lives in the absent message module).  This is the standard table: ASCII,
two-byte C2–DF, three-byte E0–EF with the E0/ED restrictions, four-byte
F0–F4 with the F0/F4 restrictions. -/
def validUtf8 : List Nat → Bool
  | [] => true
  | b :: tail =>
    if b ≤ 127 then validUtf8 tail
    else if 194 ≤ b && b ≤ 223 then
      match tail with
      | c :: t2 => utf8Cont c && validUtf8 t2
      | [] => false
    else if 224 ≤ b && b ≤ 239 then
      match tail with
      | c :: d :: t3 =>
        (if b = 224 then 160 ≤ c && c ≤ 191
         else if b = 237 then 128 ≤ c && c ≤ 159
         else utf8Cont c) && utf8Cont d && validUtf8 t3
      | _ => false
    else if 240 ≤ b && b ≤ 244 then
      match tail with
      | c :: d :: e :: t4 =>
        (if b = 240 then 144 ≤ c && c ≤ 191
         else if b = 244 then 128 ≤ c && c ≤ 143
         else utf8Cont c) && utf8Cont d && utf8Cont e && validUtf8 t4
      | _ => false
    else false

/-- Data-frame opcodes (the `Data` enum of the frame coding module). -/
inductive OpData
  | Continue
  | Text
  | Binary
  | Reserved (i : Nat)
  deriving DecidableEq

/-- Control-frame opcodes (the `Control` enum of the frame coding module). -/
inductive OpCtl
  | Close
  | Ping
  | Pong
  | Reserved (i : Nat)
  deriving DecidableEq

/-- Frame opcodes (`OpCode` of the frame coding module). -/
inductive OpCode
  | Data (d : OpData)
  | Control (c : OpCtl)
  deriving DecidableEq

/-- Display name of a data opcode, used in the "Received ... while waiting
for more fragments" protocol error.  Modelled from the spec: the `Display`
instance lives in the absent frame module. -/
def OpData.name : OpData → String
  | .Continue => "Continue"
  | .Text => "Text"
  | .Binary => "Binary"
  | .Reserved i => "Reserved " ++ toString i

/-- Close status code `CloseCode::Normal` (RFC 6455 code 1000). -/
def closeNormal : Nat := 1000

/-- Close status code `CloseCode::Protocol` (RFC 6455 code 1002). -/
def closeProtocol : Nat := 1002

/-- Modelled from the spec: the close-code policy of §6 — codes 1000–1011
and 3000–4999 are allowed as peer-originated reasons, all others, including
1004, 1005 and 1006, are rejected (`CloseCode::is_allowed` lives in the
absent frame module). -/
def CloseCode.is_allowed (code : Nat) : Bool :=
  (1000 ≤ code && code ≤ 1011 && code ≠ 1004 && code ≠ 1005 && code ≠ 1006)
  || (3000 ≤ code && code ≤ 4999)

/-- A parsed WebSocket frame.  Per §4.1 the mask key is applied by the codec;
the embedding keeps the logical (unmasked) payload together with the mask
flag. -/
structure Frame where
  is_final : Bool
  rsv1 : Bool
  rsv2 : Bool
  rsv3 : Bool
  masked : Bool
  opcode : OpCode
  payload : List Nat
  deriving DecidableEq

/-- Modelled from the spec: `Frame::message` of the absent frame module — a
data frame with the given payload, opcode and final flag, all reserved bits
clear, unmasked. -/
def Frame.message (data : List Nat) (opcode : OpCode) (fin : Bool) : Frame :=
  { is_final := fin, rsv1 := false, rsv2 := false, rsv3 := false,
    masked := false, opcode := opcode, payload := data }

/-- Modelled from the spec: `Frame::pong` of the absent frame module — a
final Pong control frame carrying the given payload. -/
def Frame.pong (data : List Nat) : Frame :=
  { is_final := true, rsv1 := false, rsv2 := false, rsv3 := false,
    masked := false, opcode := .Control .Pong, payload := data }

/-- Modelled from the spec: `Frame::close` of the absent frame module — a
final Close control frame; a body `(code, reason)` is serialized as the
big-endian code followed by the reason bytes, no body gives an empty
payload. -/
def Frame.close (body : Option (Nat × List Nat)) : Frame :=
  { is_final := true, rsv1 := false, rsv2 := false, rsv3 := false,
    masked := false, opcode := .Control .Close,
    payload :=
      match body with
      | none => []
      | some (code, reason) => code / 256 :: code % 256 :: reason }

/-- Modelled from the spec: `Frame::remove_mask` of the absent frame module
clears the mask flag and unmasks in place; the embedding keeps logical
payloads, so only the flag changes. -/
def Frame.remove_mask (f : Frame) : Frame :=
  { f with masked := false }

/-- Modelled from the spec: `Frame::set_mask` of the absent frame module
assigns a fresh mask to an outgoing frame; the embedding keeps logical
payloads, so only the flag changes. -/
def Frame.set_mask (f : Frame) : Frame :=
  { f with masked := true }

/-- The big-endian status code carried by a close frame's payload, if the
payload is long enough to hold one.  Inverse of the serialization used by
`Frame.close`. -/
def Frame.close_code (f : Frame) : Option Nat :=
  match f.payload with
  | hi :: lo :: _ => some (hi * 256 + lo)
  | _ => none

/-- The reason bytes carried by a close frame's payload after the two code
bytes, if the payload holds a code.  Inverse of the serialization used by
`Frame.close`. -/
def Frame.close_reason (f : Frame) : Option (List Nat) :=
  match f.payload with
  | _ :: _ :: rest => some rest
  | _ => none

/-- Modelled from the spec: the error taxonomy of §7 (the `Error` enum lives
in the absent error module).  `MessageTooLong`, `Utf8` and
`ConnectionClosed` carry no ad-hoc text in the model. -/
inductive WsError
  | Protocol (msg : String)
  | MessageTooLong
  | Utf8
  | ConnectionClosed
  deriving DecidableEq

/-- Modelled from the spec: the rendering used when an error is wrapped into
an extension error string (the `Display` instance lives in the absent error
module). -/
def WsError.text : WsError → String
  | .Protocol m => m
  | .MessageTooLong => "Message too long"
  | .Utf8 => "UTF-8 encoding error"
  | .ConnectionClosed => "Connection closed normally"

/-- A completed WebSocket message (text payloads kept as their UTF-8
bytes). -/
inductive Message
  | Text (bytes : List Nat)
  | Binary (bytes : List Nat)
  deriving DecidableEq

/-- The raw payload of a message. -/
def Message.into_data : Message → List Nat
  | .Text b => b
  | .Binary b => b

/-- Kind of an in-flight incomplete message. -/
inductive IncompleteMessageType
  | Text
  | Binary
  deriving DecidableEq

/-- Modelled from the spec: the message assembler of §4.2 (the message
module is absent from this source tree) — a kind plus an accumulation
buffer. -/
structure IncompleteMessage where
  kind : IncompleteMessageType
  buffer : List Nat
  deriving DecidableEq

/-- Modelled from the spec: `IncompleteMessage::new` starts an empty
buffer of the given kind. -/
def IncompleteMessage.new (kind : IncompleteMessageType) : IncompleteMessage :=
  { kind := kind, buffer := [] }

/-- Modelled from the spec: `IncompleteMessage::extend` appends bytes and
fails with MessageTooLong when an optional size limit would be exceeded. -/
def IncompleteMessage.extend (m : IncompleteMessage) (tail : List Nat)
    (size_limit : Option Nat) : Except WsError IncompleteMessage :=
  match size_limit with
  | some limit =>
    if m.buffer.length + tail.length > limit then .error .MessageTooLong
    else .ok { m with buffer := m.buffer ++ tail }
  | none => .ok { m with buffer := m.buffer ++ tail }

/-- Modelled from the spec: `IncompleteMessage::complete` yields the
message, validating text payloads as UTF-8 (§4.2). -/
def IncompleteMessage.complete (m : IncompleteMessage) : Except WsError Message :=
  match m.kind with
  | .Binary => .ok (.Binary m.buffer)
  | .Text => if validUtf8 m.buffer then .ok (.Text m.buffer) else .error .Utf8

/-- Default maximum message size (§6: 64 MiB). -/
def MAX_MESSAGE_SIZE : Nat := 64 * 1024 * 1024

/-- Modelled from the spec: `Frame::into_close` of the absent frame module —
an empty payload means no body, a one-byte payload is a protocol error, and
otherwise the first two bytes are the big-endian code followed by a UTF-8
reason. -/
def Frame.into_close (f : Frame) : Except WsError (Option (Nat × List Nat)) :=
  match f.payload with
  | [] => .ok none
  | [_] => .error (.Protocol "Invalid close sequence")
  | hi :: lo :: rest =>
    if validUtf8 rest then .ok (some (hi * 256 + lo, rest)) else .error .Utf8

/-- Client or server role of the websocket (`Role` in `protocol/mod.rs`). -/
inductive Role
  | Server
  | Client
  deriving DecidableEq

/-- The connection state (`WebSocketState` in `protocol/mod.rs`). -/
inductive WebSocketState
  | Active
  | ClosedByUs
  | ClosedByPeer
  deriving DecidableEq

/-- Whether normal messages may still be processed
(`WebSocketState::is_active`). -/
def WebSocketState.is_active : WebSocketState → Bool
  | .Active => true
  | _ => false

/-- The mutable fields of `WebSocket<Stream>`: role, state, the incomplete
inbound message, the send queue and the out-of-band pong slot.  The
underlying frame socket is factored out: frame input is passed to
`readMessageFrame` explicitly and frame output is returned explicitly. -/
structure WebSocketSt where
  role : Role
  state : WebSocketState
  incomplete : Option IncompleteMessage
  send_queue : List Frame
  pong : Option Frame
  deriving DecidableEq

/-- Embedding of `WebSocket::do_close` (protocol/mod.rs lines 229–262):
while Active, move to ClosedByPeer and enqueue the reply close frame —
`CloseCode::Normal` with empty reason when the received code is allowed,
`CloseCode::Protocol` with reason "Protocol violation" otherwise, and a
bodiless close when no code was received.  In the two closed states nothing
happens (the function returns `Ok(())` in all cases). -/
def doClose (ws : WebSocketSt) (close : Option (Nat × List Nat)) : WebSocketSt :=
  match ws.state with
  | .Active =>
    let reply :=
      match close with
      | some (code, _) =>
        if CloseCode.is_allowed code then Frame.close (some (closeNormal, strBytes ""))
        else Frame.close (some (closeProtocol, strBytes "Protocol violation"))
      | none => Frame.close none
    { ws with state := .ClosedByPeer, send_queue := ws.send_queue ++ [reply] }
  | .ClosedByPeer => ws
  | .ClosedByUs => ws

/-- Embedding of `WebSocket::do_ping` (protocol/mod.rs lines 265–273): the
pong slot is overwritten with a pong echoing the ping payload, so only the
most recent ping survives. -/
def doPing (ws : WebSocketSt) (ping : List Nat) : WebSocketSt :=
  { ws with pong := some (Frame.pong ping) }

/-- Embedding of `WebSocket::do_pong` (protocol/mod.rs lines 276–283):
pongs are accepted without bookkeeping. -/
def doPong (ws : WebSocketSt) (_ : List Nat) : WebSocketSt :=
  ws

/-- Embedding of `WebSocket::close` (protocol/mod.rs lines 81–92): while
Active the state moves to ClosedByUs (and nothing else happens — the reply
frame is left as a `TODO` in the source); in every other state nothing
changes.  The call always returns `Ok(())`. -/
def close (ws : WebSocketSt) : WebSocketSt × Except WsError Unit :=
  (match ws.state with
   | .Active => { ws with state := .ClosedByUs }
   | _ => ws,
   .ok ())

/-- Embedding of `WebSocket::send_one_frame` (protocol/mod.rs lines
301–313): a client masks every outgoing frame, a server sends it as is; the
result is the frame written to the codec. -/
def send_one_frame (role : Role) (frame : Frame) : Frame :=
  match role with
  | .Server => frame
  | .Client => frame.set_mask

/-- Embedding of `WebSocket::send_pending` (protocol/mod.rs lines 286–298):
the pong slot is sent first if set, then the send queue is drained in FIFO
order.  Returns the new state and the frames written, in order. -/
def send_pending (ws : WebSocketSt) : WebSocketSt × List Frame :=
  let pongs :=
    match ws.pong with
    | some p => [send_one_frame ws.role p]
    | none => []
  ({ ws with pong := none, send_queue := [] },
   pongs ++ ws.send_queue.map (send_one_frame ws.role))

/-- Result of processing one inbound frame: `Ok(Some(msg))`, `Ok(None)` or
`Err(e)` of `read_message_frame`. -/
inductive ReadOutcome
  | msg (m : Message)
  | noMsg
  | err (e : WsError)
  deriving DecidableEq

/-- Embedding of the Text/Binary arm of the data dispatch in
`read_message_frame` (protocol/mod.rs lines 196–213): start a fresh
incomplete message, extend it with the frame data, and either complete it
(final frame) or store it. -/
def startDataMessage (ws : WebSocketSt) (mt : IncompleteMessageType)
    (data : List Nat) (fin : Bool) : WebSocketSt × ReadOutcome :=
  match (IncompleteMessage.new mt).extend data (some MAX_MESSAGE_SIZE) with
  | .error e => (ws, .err e)
  | .ok m =>
    if fin then
      match m.complete with
      | .error e => (ws, .err e)
      | .ok msg => (ws, .msg msg)
    else ({ ws with incomplete := some m }, .noMsg)

/-- Embedding of `WebSocket::read_message_frame` (protocol/mod.rs lines
107–226).  The input is the frame delivered by the frame socket, `none`
standing for end of input.  Validation order follows the source: reserved
bits first, then the role-dependent mask check, then the opcode dispatch
with the control-frame guards, the close/ping/pong handling and the data
fragmentation rules. -/
def readMessageFrame (ws : WebSocketSt) (input : Option Frame) :
    WebSocketSt × ReadOutcome :=
  match input with
  | none => (ws, .err (.Protocol "Connection reset without closing handshake"))
  | some frame0 =>
    if frame0.rsv1 || frame0.rsv2 || frame0.rsv3 then
      (ws, .err (.Protocol "Reserved bits are non-zero"))
    else
      let masked : Except WsError Frame :=
        match ws.role with
        | .Server =>
          if frame0.masked then .ok frame0.remove_mask
          else .error (.Protocol "Received an unmasked frame from client")
        | .Client =>
          if frame0.masked then .error (.Protocol "Received a masked frame from server")
          else .ok frame0
      match masked with
      | .error e => (ws, .err e)
      | .ok frame =>
        match frame.opcode with
        | .Control ctl =>
          if !frame.is_final then (ws, .err (.Protocol "Fragmented control frame"))
          else if frame.payload.length > 125 then
            (ws, .err (.Protocol "Control frame too big"))
          else
            match ctl with
            | .Close =>
              match frame.into_close with
              | .error e => (ws, .err e)
              | .ok c => (doClose ws c, .noMsg)
            | .Reserved i =>
              (ws, .err (.Protocol ("Unknown control frame type " ++ toString i)))
            | .Ping =>
              if !ws.state.is_active then (ws, .noMsg)
              else (doPing ws frame.payload, .noMsg)
            | .Pong =>
              if !ws.state.is_active then (ws, .noMsg)
              else (doPong ws frame.payload, .noMsg)
        | .Data data =>
          if !ws.state.is_active then (ws, .noMsg)
          else
            let fin := frame.is_final
            match data with
            | .Continue =>
              match ws.incomplete with
              | some msg =>
                match msg.extend frame.payload (some MAX_MESSAGE_SIZE) with
                | .error e => (ws, .err e)
                | .ok msg2 =>
                  if fin then
                    match msg2.complete with
                    | .error e => ({ ws with incomplete := none }, .err e)
                    | .ok m => ({ ws with incomplete := none }, .msg m)
                  else ({ ws with incomplete := some msg2 }, .noMsg)
              | none => (ws, .err (.Protocol "Continue frame but nothing to continue"))
            | .Text =>
              if ws.incomplete.isSome then
                (ws, .err (.Protocol ("Received " ++ OpData.Text.name
                  ++ " while waiting for more fragments")))
              else startDataMessage ws .Text frame.payload fin
            | .Binary =>
              if ws.incomplete.isSome then
                (ws, .err (.Protocol ("Received " ++ OpData.Binary.name
                  ++ " while waiting for more fragments")))
              else startDataMessage ws .Binary frame.payload fin
            | .Reserved i =>
              if ws.incomplete.isSome then
                (ws, .err (.Protocol ("Received " ++ (OpData.Reserved i).name
                  ++ " while waiting for more fragments")))
              else (ws, .err (.Protocol ("Unknown data frame type " ++ toString i)))

/-- Scenario helper: feed a sequence of frames to the state machine,
keeping only the evolving state (the read loop of `read_message` between
sends). -/
def recvFrames (ws : WebSocketSt) (fs : List Frame) : WebSocketSt :=
  fs.foldl (fun s f => (readMessageFrame s (some f)).1) ws

/-- A final, unmasked Ping control frame with the given payload. -/
def pingFrame (p : List Nat) : Frame :=
  { is_final := true, rsv1 := false, rsv2 := false, rsv3 := false,
    masked := false, opcode := .Control .Ping, payload := p }

/-- flate2 compression level `Compression::fast()`. -/
def compressionFast : Nat := 1

/-- flate2 compression level `Compression::best()`. -/
def compressionBest : Nat := 9

/-- Modelled from the spec: the encoder half of the external DEFLATE
primitive (the flate2 `Compress` object, §6).  The source tree holds only
its call sites; the model tracks the negotiable observables — compression
level, window bits and the sliding-window context that reset clears. -/
structure Deflator where
  compression_level : Nat
  window_bits : Nat
  context : List Nat
  deriving DecidableEq

/-- Modelled from the spec: `Compress::new(level, false)` — raw mode with
the default 15 window bits. -/
def Deflator.new (level : Nat) : Deflator :=
  { compression_level := level, window_bits := 15, context := [] }

/-- Modelled from the spec: `Compress::new_with_window_bits(level, false,
bits)`. -/
def Deflator.new_with_window_bits (level bits : Nat) : Deflator :=
  { compression_level := level, window_bits := bits, context := [] }

/-- Modelled from the spec: `Compress::reset` flushes the dictionary but
keeps the configuration. -/
def Deflator.reset (d : Deflator) : Deflator :=
  { d with context := [] }

/-- Modelled from the spec: one SYNC-flushed compression of a whole buffer
(the streaming loop of `Deflator::compress` around flate2).  §6 fixes the
interface, not the coded bytes; the model realizes it with stored blocks:
the output is the input followed by the `0x00 0x00 0xFF 0xFF` trailer, and
the input joins the sliding-window context. -/
def Deflator.compress (d : Deflator) (input : List Nat) : Deflator × List Nat :=
  ({ d with context := d.context ++ input }, input ++ [0, 0, 255, 255])

/-- Modelled from the spec: the decoder half of the external DEFLATE
primitive (the flate2 `Decompress` object, §6). -/
structure Inflator where
  window_bits : Nat
  context : List Nat
  deriving DecidableEq

/-- Modelled from the spec: `Decompress::new(false)` — raw mode with the
default 15 window bits. -/
def Inflator.new : Inflator :=
  { window_bits := 15, context := [] }

/-- Modelled from the spec: `Decompress::new_with_window_bits(false,
bits)`. -/
def Inflator.new_with_window_bits (bits : Nat) : Inflator :=
  { window_bits := bits, context := [] }

/-- Modelled from the spec: `Decompress::reset(false)` flushes the
dictionary but keeps the configuration. -/
def Inflator.reset (i : Inflator) : Inflator :=
  { i with context := [] }

/-- Modelled from the spec: one SYNC-flushed decompression of a whole
buffer (the streaming loop of `Inflator::decompress` around flate2),
realized as the inverse of the stored-block model: a well-formed input ends
with the `0x00 0x00 0xFF 0xFF` trailer and decodes to the bytes before
it. -/
def Inflator.decompress (i : Inflator) (input : List Nat) :
    Except String (Inflator × List Nat) :=
  if input.drop (input.length - 4) = [0, 0, 255, 255] && 4 ≤ input.length then
    let out := input.take (input.length - 4)
    .ok ({ i with context := i.context ++ out }, out)
  else .error "corrupt deflate stream"

/-- `DeflateConfig` (extensions/deflate.rs lines 110–121), with the flate2
compression level as a number. -/
structure DeflateConfig where
  max_message_size : Option Nat
  max_window_bits : Nat
  request_no_context_takeover : Bool
  accept_no_context_takeover : Bool
  fragments_capacity : Nat
  fragments_grow : Bool
  compress_reset : Bool
  decompress_reset : Bool
  compression_level : Nat
  deriving DecidableEq

/-- `Default for DeflateConfig` (extensions/deflate.rs lines 132–146). -/
def DeflateConfig.default : DeflateConfig :=
  { max_message_size := some MAX_MESSAGE_SIZE,
    max_window_bits := 15,
    request_no_context_takeover := false,
    accept_no_context_takeover := true,
    fragments_capacity := 10,
    fragments_grow := true,
    compress_reset := false,
    decompress_reset := false,
    compression_level := compressionBest }

/-- `DeflateExtensionError` (extensions/deflate.rs lines 148–153). -/
inductive DeflateExtensionError
  | DeflateError (m : String)
  | InflateError (m : String)
  | NegotiationError (m : String)
  deriving DecidableEq

/-- Modelled from the spec: the pass-through extension (`PlainTextExt`,
§4.3 — absent from this source tree) forwards data frames through the
message assembler without transformation, keeping its own incomplete
message and size limit. -/
structure PlainTextExt where
  incomplete : Option IncompleteMessage
  max_message_size : Option Nat
  deriving DecidableEq

/-- Modelled from the spec: a fresh pass-through extension with the given
size limit. -/
def PlainTextExt.new (sz : Option Nat) : PlainTextExt :=
  { incomplete := none, max_message_size := sz }

/-- Modelled from the spec: the pass-through extension never claims an RSV
bit. -/
def PlainTextExt.rsv1_bit (_ : PlainTextExt) : Bool :=
  false

/-- Modelled from the spec: `on_receive_frame` of the pass-through
extension assembles fragments exactly as §4.2 prescribes — Continue extends
the pending message (error when there is none), Text/Binary start a new
one, a final frame completes it. -/
def PlainTextExt.on_receive_frame (px : PlainTextExt) (frame : Frame) :
    PlainTextExt × Except WsError (Option Message) :=
  match frame.opcode with
  | .Data .Continue =>
    match px.incomplete with
    | some m =>
      match m.extend frame.payload px.max_message_size with
      | .error e => (px, .error e)
      | .ok m2 =>
        if frame.is_final then
          match m2.complete with
          | .error e => ({ px with incomplete := none }, .error e)
          | .ok msg => ({ px with incomplete := none }, .ok (some msg))
        else ({ px with incomplete := some m2 }, .ok none)
    | none => (px, .error (.Protocol "Continue frame but nothing to continue"))
  | .Data .Text =>
    match (IncompleteMessage.new .Text).extend frame.payload px.max_message_size with
    | .error e => (px, .error e)
    | .ok m =>
      if frame.is_final then
        match m.complete with
        | .error e => (px, .error e)
        | .ok msg => (px, .ok (some msg))
      else ({ px with incomplete := some m }, .ok none)
  | .Data .Binary =>
    match (IncompleteMessage.new .Binary).extend frame.payload px.max_message_size with
    | .error e => (px, .error e)
    | .ok m =>
      if frame.is_final then
        match m.complete with
        | .error e => (px, .error e)
        | .ok msg => (px, .ok (some msg))
      else ({ px with incomplete := some m }, .ok none)
  | .Data (.Reserved i) =>
    (px, .error (.Protocol ("Unknown data frame type " ++ toString i)))
  | .Control _ => (px, .ok none)

/-- `DeflateExt` (extensions/deflate.rs lines 21–28). -/
structure DeflateExt where
  enabled : Bool
  config : DeflateConfig
  fragments : List Frame
  inflator : Inflator
  deflator : Deflator
  uncompressed_extension : PlainTextExt
  deriving DecidableEq

/-- `DeflateExt::new` (extensions/deflate.rs lines 50–59): disabled, empty
fragment list, default codecs — the deflator is built with
`Compression::fast()` regardless of the configured level. -/
def DeflateExt.new (config : DeflateConfig) : DeflateExt :=
  { enabled := false,
    config := config,
    fragments := [],
    inflator := Inflator.new,
    deflator := Deflator.new compressionFast,
    uncompressed_extension := PlainTextExt.new config.max_message_size }

/-- `WebSocketExtension::rsv1` for `DeflateExt` (extensions/deflate.rs
lines 188–194): claimed exactly when the extension is enabled. -/
def DeflateExt.rsv1_bit (ext : DeflateExt) : Bool :=
  if ext.enabled then true else ext.uncompressed_extension.rsv1_bit

/-- Header name `Sec-WebSocket-Extensions` as the http crate stores it. -/
def SEC_WEBSOCKET_EXTENSIONS : String := "sec-websocket-extensions"

/-- The `EXT_NAME` constant (extensions/deflate.rs line 179). -/
def EXT_NAME : String := "permessage-deflate"

/-- Response headers as a name–value list (the http crate's header map
restricted to what the extension touches). -/
structure HttpResponse where
  headers : List (String × String)
  deriving DecidableEq

/-- Remove every header with the given name (`HeaderMap::remove`). -/
def headerRemove (hs : List (String × String)) (name : String) :
    List (String × String) :=
  hs.filter (fun kv => kv.1 ≠ name)

/-- Insert a header, replacing any previous value (`HeaderMap::insert`). -/
def headerInsert (hs : List (String × String)) (name value : String) :
    List (String × String) :=
  headerRemove hs name ++ [(name, value)]

/-- `DeflateExt::decline` (extensions/deflate.rs lines 104–107): mark not
enabled and remove the header named `EXT_NAME` — note the source removes
the header by the extension name, not by `Sec-WebSocket-Extensions`. -/
def DeflateExt.decline (ext : DeflateExt) (res : HttpResponse) :
    DeflateExt × HttpResponse :=
  ({ ext with enabled := false },
   { res with headers := headerRemove res.headers EXT_NAME })

/-- Whitespace as the negotiation strings can carry it (ASCII). -/
def isWsChar (c : Char) : Bool :=
  c = ' ' || c = '\t' || c = '\n' || c = '\r'

/-- Split a character list at a separator, keeping empty groups — the
splitting behaviour of Rust's `str::split(char)`. -/
def splitChar (sep : Char) : List Char → List (List Char)
  | [] => [[]]
  | c :: rest =>
    let r := splitChar sep rest
    if c = sep then [] :: r
    else
      match r with
      | [] => [[c]]
      | g :: gs => (c :: g) :: gs

/-- Rust's `str::split(char)` over the underlying character list. -/
def rsSplit (s : String) (sep : Char) : List String :=
  (splitChar sep s.data).map String.mk

/-- Rust's `str::trim` (whitespace restricted to ASCII). -/
def rsTrim (s : String) : String :=
  String.mk (((s.data.dropWhile isWsChar).reverse.dropWhile isWsChar).reverse)

/-- Rust's `str::starts_with(&str)`. -/
def rsStartsWith (s pre : String) : Bool :=
  pre.data.isPrefixOf s.data

/-- Whether a pattern occurs inside a character list. -/
def containsChars (pat : List Char) : List Char → Bool
  | [] => pat.isPrefixOf []
  | c :: rest => pat.isPrefixOf (c :: rest) || containsChars pat rest

/-- Rust's `str::contains(&str)` — substring test. -/
def rsContains (s pat : String) : Bool :=
  containsChars pat.data s.data

/-- Decimal rendering of a natural number uses the standard digits. -/
def natToString (n : Nat) : String :=
  String.mk (Nat.toDigits 10 n)

/-- Value of a list of decimal digits; `none` on a non-digit. -/
def digitsVal : List Char → Nat → Option Nat
  | [], acc => some acc
  | c :: rest, acc =>
    if c.isDigit then digitsVal rest (acc * 10 + (c.toNat - 48)) else none

/-- Parse of a decimal `u8` as Rust's `str::parse::<u8>`: optional leading
plus sign, at least one digit, digits only, value at most 255. -/
def parseU8 (s : String) : Option Nat :=
  let cs :=
    match s.data with
    | '+' :: r => r
    | cs => cs
  match cs with
  | [] => none
  | _ =>
    match digitsVal cs 0 with
    | some n => if n ≤ 255 then some n else none
    | none => none

/-- The running state of the parameter loop inside
`DeflateExt::on_receive_request`: the extension, the response being built,
the accumulated response value `res_ext` and the four duplicate flags. -/
structure NegotiationSt where
  ext : DeflateExt
  res : HttpResponse
  res_ext : String
  s_takeover : Bool
  c_takeover : Bool
  s_max : Bool
  c_max : Bool
  deriving DecidableEq

/-- Apply `DeflateExt::decline` inside the parameter loop. -/
def NegotiationSt.declined (st : NegotiationSt) : NegotiationSt :=
  let (e, r) := st.ext.decline st.res
  { st with ext := e, res := r }

/-- One parameter of one `Sec-WebSocket-Extensions` request header, as the
match inside `DeflateExt::on_receive_request` processes it
(extensions/deflate.rs lines 239–333).  Declining never breaks out of the
loop in the source, so the state threads on. -/
def processParam (st : NegotiationSt) (rawParam : String) : NegotiationSt :=
  let param := rsTrim rawParam
  if param = "permessage-deflate" then
    { st with res_ext := st.res_ext ++ "permessage-deflate" }
  else if param = "server_no_context_takeover" then
    if st.s_takeover then st.declined
    else
      let st := { st with s_takeover := true }
      if st.ext.config.accept_no_context_takeover then
        { st with
          ext := { st.ext with
                   config := { st.ext.config with compress_reset := true } },
          res_ext := st.res_ext ++ "; server_no_context_takeover" }
      else st
  else if param = "client_no_context_takeover" then
    if st.c_takeover then st.declined
    else
      { st with
        c_takeover := true,
        ext := { st.ext with
                 config := { st.ext.config with decompress_reset := true } },
        res_ext := st.res_ext ++ "; client_no_context_takeover" }
  else if rsStartsWith param "server_max_window_bits" then
    if st.s_max then st.declined
    else
      let st := { st with s_max := true }
      match (rsSplit param '=').drop 1 with
      | [] => st
      | wbs :: _ =>
        match parseU8 (rsTrim wbs) with
        | some wb =>
          if 9 ≤ wb && wb ≤ 15 then
            if wb < st.ext.config.max_window_bits then
              { st with
                ext := { st.ext with
                         deflator := Deflator.new_with_window_bits
                           st.ext.config.compression_level wb },
                res_ext := st.res_ext ++ "; " ++ param }
            else st
          else st.declined
        | none => st.declined
  else if rsStartsWith param "client_max_window_bits" then
    if st.c_max then st.declined
    else
      let st := { st with c_max := true }
      let pushDefault := fun (s : NegotiationSt) =>
        { s with res_ext := s.res_ext ++ "; " ++ "client_max_window_bits="
            ++ natToString s.ext.config.max_window_bits }
      match (rsSplit param '=').drop 1 with
      | [] => pushDefault st
      | wbs :: _ =>
        match parseU8 (rsTrim wbs) with
        | some wb =>
          if 9 ≤ wb && wb ≤ 15 then
            if wb < st.ext.config.max_window_bits then
              { st with
                ext := { st.ext with
                         inflator := Inflator.new_with_window_bits wb },
                res_ext := st.res_ext ++ "; " ++ param }
            else pushDefault st
          else pushDefault st.declined
        | none => pushDefault st.declined
  else st.declined

/-- Process one whole request header value: fold the parameter handler over
the split on `;`, starting from a fresh `res_ext` and cleared duplicate
flags. -/
def processHeader (ext : DeflateExt) (res : HttpResponse) (header : String) :
    NegotiationSt :=
  (rsSplit header ';').foldl processParam
    { ext := ext, res := res, res_ext := "",
      s_takeover := false, c_takeover := false, s_max := false, c_max := false }

/-- The header loop of `DeflateExt::on_receive_request`
(extensions/deflate.rs lines 230–375): per header value run the parameter
loop, then apply the three follow-up rules — append
`client_no_context_takeover` when requested and absent (setting
`decompress_reset`), append the configured `server_max_window_bits` when
absent, and skip the whole offer when `client_max_window_bits` is absent
while the configured maximum is below 15.  A surviving offer is written to
the response, the extension is enabled, and processing stops; if no offer
survives, decline. -/
def onReceiveRequestGo (ext : DeflateExt) (res : HttpResponse) :
    List String → DeflateExt × HttpResponse
  | [] => ext.decline res
  | header :: rest =>
    let st := processHeader ext res header
    let (ext1, re1) :=
      if !(rsContains st.res_ext "client_no_context_takeover")
          && st.ext.config.request_no_context_takeover then
        ({ st.ext with
           config := { st.ext.config with decompress_reset := true } },
         st.res_ext ++ "; client_no_context_takeover")
      else (st.ext, st.res_ext)
    let re2 :=
      if !(rsContains re1 "server_max_window_bits") then
        re1 ++ "; " ++ "server_max_window_bits="
          ++ natToString ext1.config.max_window_bits
      else re1
    if !(rsContains re2 "client_max_window_bits")
        && ext1.config.max_window_bits < 15 then
      onReceiveRequestGo ext1 st.res rest
    else
      ({ ext1 with enabled := true },
       { st.res with
         headers := headerInsert st.res.headers SEC_WEBSOCKET_EXTENSIONS re2 })

/-- `DeflateExt::on_receive_request` (extensions/deflate.rs lines 225–376)
over the list of `Sec-WebSocket-Extensions` values of the request.  Header
values are taken as strings (the `to_str` failure path concerns non-ASCII
header bytes, which the model excludes), so the call cannot fail and the
result is the updated extension and response. -/
def DeflateExt.on_receive_request (ext : DeflateExt)
    (requestExtensionHeaders : List String) (res : HttpResponse) :
    DeflateExt × HttpResponse :=
  onReceiveRequestGo ext res requestExtensionHeaders

/-- `DeflateExt::parse_window_parameter` (extensions/deflate.rs lines
73–102) on the segments after the first `=`: no value is accepted silently,
a value of 8 is promoted to 9, a value in `[9,15]` different from the
configured maximum is returned, the configured maximum itself is accepted
silently, and anything else is an error — the error text names
`server_max_window_bits` even when the caller is handling the client
parameter, as the source does. -/
def parse_window_parameter (cfgMax : Nat) (parts : List String) :
    Except String (Option Nat) :=
  match parts with
  | [] => .ok none
  | wbs :: _ =>
    match parseU8 (rsTrim wbs) with
    | some wb0 =>
      let wb := if wb0 = 8 then 9 else wb0
      if 9 ≤ wb && wb ≤ 15 then
        if wb ≠ cfgMax then .ok (some wb) else .ok none
      else .error ("Invalid server_max_window_bits parameter: " ++ natToString wb)
    | none => .error "invalid digit found in string"

/-- The running state of the parameter loop inside
`DeflateExt::on_response`: the extension plus the five duplicate flags. -/
structure RespSt where
  ext : DeflateExt
  seen_name : Bool
  seen_server_takeover : Bool
  seen_client_takeover : Bool
  seen_server_max : Bool
  seen_client_max : Bool
  deriving DecidableEq

/-- One parameter of the server's chosen `Sec-WebSocket-Extensions` value,
as the match inside `DeflateExt::on_response` processes it
(extensions/deflate.rs lines 388–491). -/
def processRespParam (st : RespSt) (rawParam : String) :
    Except DeflateExtensionError RespSt :=
  let param := rsTrim rawParam
  if param = "permessage-deflate" then
    if st.seen_name then
      .error (.NegotiationError "Duplicate extension name permessage-deflate")
    else .ok { st with ext := { st.ext with enabled := true }, seen_name := true }
  else if param = "server_no_context_takeover" then
    if st.seen_server_takeover then
      .error (.NegotiationError
        "Duplicate extension parameter server_no_context_takeover")
    else .ok { st with
      seen_server_takeover := true,
      ext := { st.ext with
               config := { st.ext.config with decompress_reset := true } } }
  else if param = "client_no_context_takeover" then
    if st.seen_client_takeover then
      .error (.NegotiationError
        "Duplicate extension parameter client_no_context_takeover")
    else if st.ext.config.accept_no_context_takeover then
      .ok { st with
        seen_client_takeover := true,
        ext := { st.ext with
                 config := { st.ext.config with compress_reset := true } } }
    else .error (.NegotiationError "The client requires context takeover.")
  else if rsStartsWith param "server_max_window_bits" then
    if st.seen_server_max then
      .error (.NegotiationError
        "Duplicate extension parameter server_max_window_bits")
    else
      match parse_window_parameter st.ext.config.max_window_bits
          ((rsSplit param '=').drop 1) with
      | .ok (some bits) =>
        .ok { st with
          seen_server_max := true,
          ext := { st.ext with
                   deflator := Deflator.new_with_window_bits
                     st.ext.config.compression_level bits } }
      | .ok none => .ok { st with seen_server_max := true }
      | .error e =>
        .error (.NegotiationError ("server_max_window_bits parameter error: " ++ e))
  else if rsStartsWith param "client_max_window_bits" then
    if st.seen_client_max then
      .error (.NegotiationError
        "Duplicate extension parameter client_max_window_bits")
    else
      match parse_window_parameter st.ext.config.max_window_bits
          ((rsSplit param '=').drop 1) with
      | .ok (some bits) =>
        .ok { st with
          seen_client_max := true,
          ext := { st.ext with inflator := Inflator.new_with_window_bits bits } }
      | .ok none => .ok { st with seen_client_max := true }
      | .error e =>
        .error (.NegotiationError ("client_max_window_bits parameter error: " ++ e))
  else .error (.NegotiationError ("Unknown permessage-deflate parameter: " ++ param))

/-- `DeflateExt::on_response` (extensions/deflate.rs lines 378–506) over
the list of `Sec-WebSocket-Extensions` values of the server's response:
every parameter of every value is processed in order, the first error
aborts, and on success the updated extension is returned. -/
def DeflateExt.on_response (ext : DeflateExt)
    (responseExtensionHeaders : List String) :
    Except DeflateExtensionError DeflateExt := do
  let st0 : RespSt :=
    { ext := ext, seen_name := false, seen_server_takeover := false,
      seen_client_takeover := false, seen_server_max := false,
      seen_client_max := false }
  let stF ← responseExtensionHeaders.foldlM
    (fun st header => (rsSplit header ';').foldlM processRespParam st) st0
  return stF.ext

/-- `DeflateExt::on_send_frame` (extensions/deflate.rs lines 508–527): when
enabled, a data frame's payload is compressed with SYNC flush, the last
four bytes (the trailer) are dropped, `rsv1` is set, and the encoder is
reset when `compress_reset` was negotiated; other frames pass through. -/
def DeflateExt.on_send_frame (ext : DeflateExt) (frame : Frame) :
    DeflateExt × Frame :=
  if ext.enabled then
    match frame.opcode with
    | .Data _ =>
      let (d2, compressed) := ext.deflator.compress frame.payload
      let compressed2 := compressed.take (compressed.length - 4)
      let frame2 := { frame with payload := compressed2, rsv1 := true }
      let d3 := if ext.config.compress_reset then d2.reset else d2
      ({ ext with deflator := d3 }, frame2)
    | .Control _ => (ext, frame)
  else (ext, frame)

/-- Result of `DeflateExt::on_receive_frame`: a completed message, nothing
yet, an extension error, or the `unreachable!()` / `unwrap` panic the
source can reach. -/
inductive RecvOutcome
  | msg (m : Message)
  | noMsg
  | bad (e : DeflateExtensionError)
  | panicked (why : String)
  deriving DecidableEq

/-- The tail of the compressed-message path of
`DeflateExt::on_receive_frame` (extensions/deflate.rs lines 570–589):
`complete_message` on the inflated bytes — which panics when the recorded
opcode is not Text or Binary (lines 61–71) — then the decoder reset when
`decompress_reset` was negotiated, and the wrapping of any completion
error as a `DeflateError`. -/
def DeflateExt.finishInflated (ext : DeflateExt) (data : List Nat)
    (opcode : OpCode) : DeflateExt × RecvOutcome :=
  let message : Option (Except WsError Message) :=
    match opcode with
    | .Data .Text => some (do
        let m ← (IncompleteMessage.new .Text).extend data ext.config.max_message_size
        m.complete)
    | .Data .Binary => some (do
        let m ← (IncompleteMessage.new .Binary).extend data ext.config.max_message_size
        m.complete)
    | _ => none
  match message with
  | none => (ext, .panicked "Bug: message is not text nor binary")
  | some message =>
    let ext2 :=
      if ext.config.decompress_reset then { ext with inflator := ext.inflator.reset }
      else ext
    match message with
    | .ok m => (ext2, .msg m)
    | .error e => (ext2, .bad (.DeflateError e.text))

/-- `DeflateExt::on_receive_frame` (extensions/deflate.rs lines 529–598).
A control frame hits `unreachable!()`.  When the extension is enabled and
either fragments are pending or the frame carries `rsv1`: a non-final frame
is pushed onto the fragment list and the call returns `None` — no capacity
check; a final Continuation first checks the capacity (failing with
"Exceeded max fragments." when `fragments_grow` is off and the list already
holds exactly `fragments_capacity` frames), then pushes, concatenates all
fragment payloads, appends the `0x00 0x00 0xFF 0xFF` trailer, inflates and
completes with the first fragment's opcode; a final Text/Binary frame gets
the trailer appended to its own payload, is inflated and completed.
Otherwise the frame is delegated to the pass-through extension, whose
errors are wrapped as `DeflateError`. -/
def DeflateExt.on_receive_frame (ext : DeflateExt) (frame : Frame) :
    DeflateExt × RecvOutcome :=
  match frame.opcode with
  | .Control _ => (ext, .panicked "internal error: entered unreachable code")
  | .Data _ =>
    if ext.enabled && (!ext.fragments.isEmpty || frame.rsv1) then
      if !frame.is_final then
        ({ ext with fragments := ext.fragments ++ [frame] }, .noMsg)
      else
        match frame.opcode with
        | .Data .Continue =>
          if !ext.config.fragments_grow
              && ext.config.fragments_capacity = ext.fragments.length then
            (ext, .bad (.DeflateError "Exceeded max fragments."))
          else
            let frags := ext.fragments ++ [frame]
            match frags.head? with
            | none => (ext, .panicked "called Option::unwrap() on a None value")
            | some f0 =>
              let compressed :=
                (frags.map Frame.payload).flatten ++ [0, 0, 255, 255]
              let ext1 := { ext with fragments := [] }
              match ext1.inflator.decompress compressed with
              | .error e => (ext1, .bad (.InflateError e))
              | .ok (inf2, decompressed) =>
                DeflateExt.finishInflated { ext1 with inflator := inf2 }
                  decompressed f0.opcode
        | _ =>
          let payload2 := frame.payload ++ [0, 0, 255, 255]
          match ext.inflator.decompress payload2 with
          | .error e => (ext, .bad (.InflateError e))
          | .ok (inf2, decompressed) =>
            DeflateExt.finishInflated { ext with inflator := inf2 }
              decompressed frame.opcode
    else
      let (p2, r) := ext.uncompressed_extension.on_receive_frame frame
      ({ ext with uncompressed_extension := p2 },
       match r with
       | .ok (some m) => .msg m
       | .ok none => .noMsg
       | .error e => .bad (.DeflateError e.text))

/-- A fresh deflate extension with the default configuration. -/
def defaultExt : DeflateExt :=
  DeflateExt.new DeflateConfig.default

/-- The default extension after a successful negotiation (enabled). -/
def enabledExt : DeflateExt :=
  { defaultExt with enabled := true }

/-- An idle client endpoint in the Active state. -/
def wsActive : WebSocketSt :=
  { role := .Client, state := .Active, incomplete := none,
    send_queue := [], pong := none }

/-- An Active client endpoint with one queued outbound text frame. -/
def wsWithQueue : WebSocketSt :=
  { role := .Client, state := .Active, incomplete := none,
    send_queue := [Frame.message [104, 105] (.Data .Text) true], pong := none }

/-- A final text frame with `rsv1` set and an empty payload. -/
def rsvTextFrame : Frame :=
  { is_final := true, rsv1 := true, rsv2 := false, rsv3 := false,
    masked := false, opcode := .Data .Text, payload := [] }

/-- A non-final compressed text fragment (first frame of a message). -/
def compressedTextFragment : Frame :=
  { is_final := false, rsv1 := true, rsv2 := false, rsv3 := false,
    masked := false, opcode := .Data .Text, payload := [104, 101] }

/-- A non-final continuation fragment. -/
def contFragment : Frame :=
  { is_final := false, rsv1 := false, rsv2 := false, rsv3 := false,
    masked := false, opcode := .Data .Continue, payload := [108, 108] }

/-- A final continuation fragment. -/
def finalContFragment : Frame :=
  { is_final := true, rsv1 := false, rsv2 := false, rsv3 := false,
    masked := false, opcode := .Data .Continue, payload := [111] }

/-- An enabled extension whose fragment list already holds exactly
`fragments_capacity` frames, with `fragments_grow` off. -/
def extAtCapacity : DeflateExt :=
  { DeflateExt.new
      { DeflateConfig.default with fragments_grow := false, fragments_capacity := 1 } with
    enabled := true, fragments := [compressedTextFragment] }

/-- Receiving one Ping while Active (client side) only overwrites the pong
slot and yields no message. -/
theorem readPingStep (ws : WebSocketSt) (q : List Nat)
    (hrole : ws.role = .Client) (hact : ws.state = .Active)
    (hq : q.length ≤ 125) :
    readMessageFrame ws (some (pingFrame q))
      = ({ ws with pong := some (Frame.pong q) }, .noMsg) := by
  obtain ⟨role, state, inc, sq, pg⟩ := ws
  simp only at hrole hact
  subst hrole; subst hact
  simp [readMessageFrame, pingFrame, doPing, WebSocketState.is_active,
    show ¬ (125 < q.length) from by omega]

/-- Receiving a nonempty run of Pings while Active leaves every field
unchanged except the pong slot, which holds a pong for the last ping. -/
theorem recvPingRun (front : List (List Nat)) (p : List Nat) :
    ∀ ws : WebSocketSt, ws.role = .Client → ws.state = .Active →
    (∀ q ∈ front ++ [p], q.length ≤ 125) →
    recvFrames ws ((front ++ [p]).map pingFrame)
      = { ws with pong := some (Frame.pong p) } := by
  induction front with
  | nil =>
    intro ws h1 h2 h3
    simp only [recvFrames, List.nil_append, List.map_cons, List.map_nil,
      List.foldl_cons, List.foldl_nil]
    rw [readPingStep ws p h1 h2 (h3 p (by simp))]
  | cons q rest ih =>
    intro ws h1 h2 h3
    simp only [recvFrames, List.cons_append, List.map_cons, List.foldl_cons]
    rw [readPingStep ws q h1 h2 (h3 q (by simp))]
    exact ih { ws with pong := some (Frame.pong q) } h1 h2
      (fun r hr => h3 r (by simp at hr ⊢; tauto))

/-- C7: if an Active endpoint receives several Ping frames before the next
`send_pending`, that `send_pending` writes exactly one Pong, carrying the
payload of the most recent Ping, before any frame drained from the send
queue. -/
theorem c7_ping_coalescing (ws : WebSocketSt) (front : List (List Nat))
    (p : List Nat) (hrole : ws.role = .Client) (hact : ws.state = .Active)
    (hsmall : ∀ q ∈ front ++ [p], q.length ≤ 125) :
    (send_pending (recvFrames ws ((front ++ [p]).map pingFrame))).2
      = Frame.set_mask (Frame.pong p) :: ws.send_queue.map Frame.set_mask := by
  rw [recvPingRun front p ws hrole hact hsmall]
  obtain ⟨role, state, inc, sq, pg⟩ := ws
  simp only at hrole
  subst hrole
  simp [send_pending, send_one_frame]

/-- C7 witness: Ping "a", Ping "b", Ping "c" received by an Active client
with one queued text frame; `send_pending` emits the masked Pong "c" first,
then the queued frame. -/
theorem c7_ping_coalescing_witness :
    (send_pending (recvFrames wsWithQueue (([[97], [98]] ++ [[99]]).map pingFrame))).2
      = Frame.set_mask (Frame.pong [99]) :: wsWithQueue.send_queue.map Frame.set_mask :=
  c7_ping_coalescing wsWithQueue [[97], [98]] [99] rfl rfl (by decide)

/-- C9: `on_receive_frame` of the deflate extension reaches the
`unreachable!()` panic on every frame whose opcode is a control opcode. -/
theorem c9_control_frame_panics (ext : DeflateExt) (f : Frame) (c : OpCtl)
    (h : f.opcode = .Control c) :
    ext.on_receive_frame f
      = (ext, .panicked "internal error: entered unreachable code") := by
  obtain ⟨fin, r1, r2, r3, mk, op, pl⟩ := f
  simp only at h
  subst h
  rfl

/-- C9 witness: a Ping frame fed to the default extension panics. -/
theorem c9_control_frame_panics_witness :
    defaultExt.on_receive_frame (pingFrame [])
      = (defaultExt, .panicked "internal error: entered unreachable code") :=
  c9_control_frame_panics defaultExt (pingFrame []) .Ping rfl

/-- C10: when the frame reader yields no frame, `read_message_frame`
returns the "Connection reset without closing handshake" protocol error in
every state — never a clean ConnectionClosed indicator. -/
theorem c10_eof_is_protocol_error (ws : WebSocketSt) :
    readMessageFrame ws none
      = (ws, .err (.Protocol "Connection reset without closing handshake"))
    ∧ (readMessageFrame ws none).2 ≠ .err .ConnectionClosed := by
  refine ⟨rfl, ?_⟩
  simp [readMessageFrame]

/-- C1: evaluation of `on_response` at the input
`permessage-deflate; server_max_window_bits=10` under the default
configuration (maximum 15): the source reinitializes the encoder
(deflator) with window bits 10 and leaves the decoder (inflator) at 15,
while the claim requires the decoder to be reinitialized; dually,
`client_max_window_bits=10` reinitializes the decoder and not the
encoder. -/
theorem c1_on_response_swaps_codecs :
    ((defaultExt.on_response
        ["permessage-deflate; server_max_window_bits=10"]).toOption.map
      (fun e => (e.deflator.window_bits, e.inflator.window_bits)) = some (10, 15))
    ∧ ((defaultExt.on_response
        ["permessage-deflate; client_max_window_bits=10"]).toOption.map
      (fun e => (e.deflator.window_bits, e.inflator.window_bits)) = some (15, 10)) := by
  decide

/-- The code recorded in the payload of a constructed close frame is the
code it was built from. -/
theorem close_frame_code (code : Nat) (reason : List Nat) :
    (Frame.close (some (code, reason))).close_code = some code := by
  simp only [Frame.close, Frame.close_code]
  congr 1
  omega

/-- C2 counterexample: code 3000 is allowed, yet the reply enqueued by
`do_close` carries code 1000 (`CloseCode::Normal`), not the mirrored
3000. -/
theorem c2_reply_not_mirrored :
    CloseCode.is_allowed 3000 = true
    ∧ (doClose wsActive (some (3000, strBytes "bye"))).send_queue
        = [Frame.close (some (closeNormal, strBytes ""))]
    ∧ (Frame.close (some (closeNormal, strBytes ""))).close_code = some 1000
    ∧ (Frame.close (some (closeNormal, strBytes ""))).close_code ≠ some 3000 := by
  decide

/-- C2 as amended: a Close received while Active moves the state to
ClosedByPeer and appends exactly one reply close frame to the send queue —
carrying code 1000 with empty reason when the received code is allowed,
code 1002 with reason "Protocol violation" when it is not, and no body when
no code was received. -/
theorem c2_close_reply (ws : WebSocketSt) (body : Option (Nat × List Nat))
    (h : ws.state = .Active) :
    (doClose ws body).state = .ClosedByPeer
    ∧ ∃ reply,
        (doClose ws body).send_queue = ws.send_queue ++ [reply]
        ∧ reply.opcode = .Control .Close
        ∧ reply.close_code =
            (match body with
             | some (code, _) =>
               if CloseCode.is_allowed code then some closeNormal
               else some closeProtocol
             | none => none)
        ∧ reply.close_reason =
            (match body with
             | some (code, _) =>
               if CloseCode.is_allowed code then some []
               else some (strBytes "Protocol violation")
             | none => none)
        ∧ (body = none → reply.payload = []) := by
  obtain ⟨role, state, inc, sq, pg⟩ := ws
  simp only at h
  subst h
  cases body with
  | none =>
    exact ⟨rfl, Frame.close none, rfl, rfl, rfl, rfl, fun _ => rfl⟩
  | some cb =>
    obtain ⟨code, reason⟩ := cb
    by_cases hc : CloseCode.is_allowed code = true
    · refine ⟨rfl, Frame.close (some (closeNormal, strBytes "")), ?_, rfl, ?_, ?_, by simp⟩
      · simp [doClose, hc]
      · rw [close_frame_code]
        simp [hc]
      · simp [hc, Frame.close, Frame.close_reason]
        decide
    · refine ⟨rfl, Frame.close (some (closeProtocol, strBytes "Protocol violation")),
        ?_, rfl, ?_, ?_, by simp⟩
      · simp [doClose, hc]
      · rw [close_frame_code]
        simp [hc]
      · simp [hc, Frame.close, Frame.close_reason]

/-- C2 witness: the S7 scenario — Close(1000, "bye") received while
Active. -/
theorem c2_close_reply_witness :
    (doClose wsActive (some (1000, strBytes "bye"))).state = .ClosedByPeer
    ∧ ∃ reply,
        (doClose wsActive (some (1000, strBytes "bye"))).send_queue
          = wsActive.send_queue ++ [reply]
        ∧ reply.opcode = .Control .Close
        ∧ reply.close_code =
            (match (some (1000, strBytes "bye") : Option (Nat × List Nat)) with
             | some (code, _) =>
               if CloseCode.is_allowed code then some closeNormal
               else some closeProtocol
             | none => none)
        ∧ reply.close_reason =
            (match (some (1000, strBytes "bye") : Option (Nat × List Nat)) with
             | some (code, _) =>
               if CloseCode.is_allowed code then some []
               else some (strBytes "Protocol violation")
             | none => none)
        ∧ ((some (1000, strBytes "bye") : Option (Nat × List Nat)) = none →
            reply.payload = []) :=
  c2_close_reply wsActive (some (1000, strBytes "bye")) rfl

/-- C3: evaluation of `close` on an Active endpoint: the state moves to
ClosedByUs and the call reports success, but the send queue stays empty —
no Close frame is enqueued (the source leaves it as a `TODO`) — and a
second call changes nothing. -/
theorem c3_close_enqueues_nothing :
    (close wsActive).1.state = .ClosedByUs
    ∧ (close wsActive).1.send_queue = []
    ∧ (close wsActive).2.isOk = true
    ∧ (close (close wsActive).1).1 = (close wsActive).1
    ∧ (close (close wsActive).1).2.isOk = true := by
  decide

/-- C4 counterexample: the enabled deflate extension claims `rsv1`, yet a
frame with `rsv1` set is still rejected by `read_message_frame` with the
reserved-bits protocol error — the validation consults no extension. -/
theorem c4_claimed_rsv1_still_rejected :
    enabledExt.rsv1_bit = true
    ∧ readMessageFrame wsActive (some rsvTextFrame)
        = (wsActive, .err (.Protocol "Reserved bits are non-zero")) := by
  decide

/-- C4 as amended: `read_message_frame` fails with the reserved-bits
protocol error on every frame with any of `rsv1/rsv2/rsv3` set, whatever
the state — no extension can claim the bits. -/
theorem c4_rsv_always_protocol_error (ws : WebSocketSt) (f : Frame)
    (h : (f.rsv1 || f.rsv2 || f.rsv3) = true) :
    readMessageFrame ws (some f)
      = (ws, .err (.Protocol "Reserved bits are non-zero")) := by
  simp [readMessageFrame, h]

/-- C4 witness: the amended rule at a concrete frame with `rsv1` set. -/
theorem c4_rsv_always_protocol_error_witness :
    readMessageFrame wsWithQueue (some rsvTextFrame)
      = (wsWithQueue, .err (.Protocol "Reserved bits are non-zero")) :=
  c4_rsv_always_protocol_error wsWithQueue rsvTextFrame (by decide)

/-- C5 counterexample: with `fragments_grow` off and the fragment list
already at `fragments_capacity`, a non-final continuation is pushed and
`on_receive_frame` returns `None` — no Exceeded-max-fragments error. -/
theorem c5_nonfinal_push_does_not_fail :
    extAtCapacity.config.fragments_grow = false
    ∧ extAtCapacity.fragments.length = extAtCapacity.config.fragments_capacity
    ∧ contFragment.is_final = false
    ∧ (extAtCapacity.on_receive_frame contFragment).2 = .noMsg
    ∧ (extAtCapacity.on_receive_frame contFragment).1.fragments.length = 2 := by
  decide

/-- C5 as amended: the capacity check applies when the final Continuation
frame arrives — with `fragments_grow` off and the fragment list holding
exactly `fragments_capacity` frames, the final Continuation fails with the
Exceeded-max-fragments error, while a non-final fragment is always pushed
and yields `None`. -/
theorem c5_capacity_check_on_final_continuation (ext : DeflateExt) (f : Frame)
    (hen : ext.enabled = true)
    (hentry : ext.fragments.isEmpty = false ∨ f.rsv1 = true)
    (hop : f.opcode = .Data .Continue)
    (hgrow : ext.config.fragments_grow = false)
    (hcap : ext.config.fragments_capacity = ext.fragments.length) :
    (f.is_final = false →
      ext.on_receive_frame f
        = ({ ext with fragments := ext.fragments ++ [f] }, .noMsg))
    ∧ (f.is_final = true →
      ext.on_receive_frame f
        = (ext, .bad (.DeflateError "Exceeded max fragments."))) := by
  have hcond : (ext.enabled && (!ext.fragments.isEmpty || f.rsv1)) = true := by
    rcases hentry with he | he <;> simp [hen, he]
  constructor
  · intro hfin
    simp [DeflateExt.on_receive_frame, hop, hcond, hfin]
  · intro hfin
    simp [DeflateExt.on_receive_frame, hop, hcond, hfin, hgrow, hcap]

/-- C5 witness: the amended rule at the concrete at-capacity extension, for
a non-final and for a final continuation. -/
theorem c5_capacity_check_witness :
    ((finalContFragment.is_final = false →
      extAtCapacity.on_receive_frame finalContFragment
        = ({ extAtCapacity with
             fragments := extAtCapacity.fragments ++ [finalContFragment] }, .noMsg))
    ∧ (finalContFragment.is_final = true →
      extAtCapacity.on_receive_frame finalContFragment
        = (extAtCapacity, .bad (.DeflateError "Exceeded max fragments.")))) :=
  c5_capacity_check_on_final_continuation extAtCapacity finalContFragment
    (by decide) (by decide) (by decide) (by decide) (by decide)

/-- C6: evaluation of `on_receive_request` at the offer
`permessage-deflate; unknown_param` under the default configuration: the
unknown token triggers `decline`, but the loop keeps going, so the call
ends with the extension enabled and a `Sec-WebSocket-Extensions` header in
the response — contradicting the claim (and the source's own comment) that
the offer is declined. -/
theorem c6_unknown_param_still_negotiates :
    (defaultExt.on_receive_request
        ["permessage-deflate; unknown_param"] { headers := [] }).1.enabled = true
    ∧ (defaultExt.on_receive_request
        ["permessage-deflate; unknown_param"] { headers := [] }).2.headers
      = [(SEC_WEBSOCKET_EXTENSIONS,
          "permessage-deflate; server_max_window_bits=15")] := by
  decide

end Tungstenite
